import Mathlib

set_option maxHeartbeats 1000000

/-!
Verification of the RunPod serverless TTS handler (`src/runpod_handler.py`)
against its natural-language specification.

The module is embedded shallowly:

* Python `bytes` values are `List Nat` with every element `< 256`;
* `base64.b64encode` / `base64.b64decode` are modelled after CPython's
  `binascii` routines (`b2a_base64` without the trailing newline, and the
  lenient non-strict `a2b_base64` state machine, including its behaviour of
  silently discarding non-alphabet ASCII characters and stopping at a
  completed padding sequence);
* exceptions become the error side of `Except PyError`;
* the handler itself (`handlerImpl`) returns, besides the Python return
  value, the trace of `pipeline.tts` calls it performed and the job mapping
  as it stands after all dictionary operations (each dictionary access is a
  pure read threaded explicitly, mirroring `job['input']`,
  `job_input.get('text', ...)` and `job_input.get('speaker_wav_base64')`);
* the once-per-process construction of `KokoroV1Pipeline` (module line 8)
  is modelled by a process state carrying the pipeline value and a count of
  constructor invocations, with one handler invocation per step.
-/

/-- Python exception values that can escape the embedded code. -/
inductive PyError where
  | keyError : String → PyError
  | valueError : String → PyError
  | binasciiError : String → PyError
  | pipelineError : String → PyError
  deriving DecidableEq, Repr

/-- A returned Python dict with string keys and string values, as an
association list in insertion order. -/
abbrev Response := List (String × String)

/-- The standard base64 alphabet, index `n` holding the character that
encodes the sextet value `n`. -/
def b64Chars : List Char :=
  ['A', 'B', 'C', 'D', 'E', 'F', 'G', 'H', 'I', 'J', 'K', 'L', 'M',
   'N', 'O', 'P', 'Q', 'R', 'S', 'T', 'U', 'V', 'W', 'X', 'Y', 'Z',
   'a', 'b', 'c', 'd', 'e', 'f', 'g', 'h', 'i', 'j', 'k', 'l', 'm',
   'n', 'o', 'p', 'q', 'r', 's', 't', 'u', 'v', 'w', 'x', 'y', 'z',
   '0', '1', '2', '3', '4', '5', '6', '7', '8', '9', '+', '/']

/-- Index of a character in a table, or `none` (the `table_a2b_base64`
lookup in `binascii.c`, where absent characters map to `-1`). -/
def b64Index : List Char → Char → Option Nat
  | [], _ => none
  | x :: xs, c => if x = c then some 0 else (b64Index xs c).map (· + 1)

/-- Sextet value of a base64 digit, `none` for a non-alphabet character. -/
def b64Val (c : Char) : Option Nat := b64Index b64Chars c

/-- Character encoding the sextet value `n < 64`. -/
def b64Char (n : Nat) : Char := b64Chars.getD n '='

/-- `binascii.b2a_base64`: encode bytes three at a time into four base64
digits, padding a short final group with `=`. -/
def b64encodeChars : List Nat → List Char
  | [] => []
  | [a] => [b64Char (a / 4), b64Char (a % 4 * 16), '=', '=']
  | [a, b] => [b64Char (a / 4), b64Char (a % 4 * 16 + b / 16),
               b64Char (b % 16 * 4), '=']
  | a :: b :: c :: rest =>
      b64Char (a / 4) :: b64Char (a % 4 * 16 + b / 16) ::
      b64Char (b % 16 * 4 + c / 64) :: b64Char (c % 64) ::
      b64encodeChars rest

/-- `base64.b64encode(...).decode('utf-8')` as used on line 31 of the
handler: bytes to base64 text. -/
def b64encode (bs : List Nat) : String := String.mk (b64encodeChars bs)

/-- The non-strict `binascii.a2b_base64` state machine: arguments are the
remaining characters, the quad position (0..3), the held `leftchar` bits,
the count of pending pad characters and the bytes emitted so far (reversed).
Non-alphabet ASCII characters are discarded; a pad sequence completing a
quad ends decoding successfully; leftover quad positions 1, 2, 3 at end of
input are errors. -/
def a2b : List Char → Nat → Nat → Nat → List Nat → Except PyError (List Nat)
  | [], quadPos, _, _, acc =>
      if quadPos = 0 then .ok acc.reverse
      else if quadPos = 1 then
        .error (.binasciiError "Invalid base64-encoded string")
      else .error (.binasciiError "Incorrect padding")
  | c :: rest, quadPos, leftchar, pads, acc =>
      if c = '=' then
        if 2 ≤ quadPos then
          if 4 ≤ quadPos + (pads + 1) then .ok acc.reverse
          else a2b rest quadPos leftchar (pads + 1) acc
        else a2b rest quadPos leftchar pads acc
      else
        match b64Val c with
        | none => a2b rest quadPos leftchar pads acc
        | some v =>
            if quadPos = 0 then a2b rest 1 v 0 acc
            else if quadPos = 1 then
              a2b rest 2 (v % 16) 0 ((leftchar * 4 + v / 16) :: acc)
            else if quadPos = 2 then
              a2b rest 3 (v % 4) 0 ((leftchar * 16 + v / 4) :: acc)
            else a2b rest 0 0 0 ((leftchar * 64 + v) :: acc)

/-- `base64.b64decode` on a `str` argument (line 24 of the handler): the
string must be pure ASCII (else `ValueError`), then the lenient
`a2b_base64` machine runs from the initial state. -/
def b64decode (s : String) : Except PyError (List Nat) :=
  if s.toList.any (fun c => 128 ≤ c.toNat) then
    .error (.valueError "string argument should contain only ASCII characters")
  else a2b s.toList 0 0 0 []

/-- The inner `input` mapping of a job: the value at key `text` and the
value at key `speaker_wav_base64`, `none` when the key is absent. -/
structure JobInput where
  text : Option String
  speaker_wav_base64 : Option String
  deriving DecidableEq, Repr

/-- A job as delivered by the host runtime: the value at key `input`,
`none` when the key is absent. -/
structure Job where
  input : Option JobInput
  deriving DecidableEq, Repr

/-- `job['input']` (line 15): a dictionary read; raises `KeyError` when the
key is absent and leaves the mapping unchanged. -/
def Job.getItemInput (job : Job) : Except PyError JobInput × Job :=
  match job.input with
  | none => (.error (.keyError "input"), job)
  | some ji => (.ok ji, job)

/-- `job_input.get('text', default)` (line 17): a read returning the stored
value when present, leaving the mapping unchanged. -/
def JobInput.getText (ji : JobInput) : Option String × JobInput :=
  (ji.text, ji)

/-- `job_input.get('speaker_wav_base64')` (line 18): a read returning the
stored value or `None`, leaving the mapping unchanged. -/
def JobInput.getSpeaker (ji : JobInput) : Option String × JobInput :=
  (ji.speaker_wav_base64, ji)

/-- The default used for a missing `text` field (line 17). -/
def defaultText : String := "Hello, this is a test."

/-- The error message returned for a missing or empty
`speaker_wav_base64` (line 21). -/
def requiredFieldError : String := "speaker_wav_base64 is a required field."

/-- The handler body (lines 11-35), parametrised by the behaviour of
`pipeline.tts`. Besides the Python result (`Except` for an uncaught
exception versus a returned dict) it yields the list of `tts` calls made,
each with its `text` and `speaker_wav` arguments, and the job mapping
after all dictionary operations. -/
def handlerImpl (tts : String → List Nat → Except PyError (List Nat))
    (job : Job) : Except PyError Response × List (String × List Nat) × Job :=
  match Job.getItemInput job with
  | (.error e, job1) => (.error e, [], job1)
  | (.ok job_input, _) =>
      let p1 := JobInput.getText job_input
      let text := p1.1.getD defaultText
      let p2 := JobInput.getSpeaker p1.2
      let jobAfter : Job := { input := some p2.2 }
      match p2.1 with
      | none => (.ok [("error", requiredFieldError)], [], jobAfter)
      | some s =>
          if s = "" then (.ok [("error", requiredFieldError)], [], jobAfter)
          else
            match b64decode s with
            | .error e => (.error e, [], jobAfter)
            | .ok speaker_wav_bytes =>
                match tts text speaker_wav_bytes with
                | .error e => (.error e, [(text, speaker_wav_bytes)], jobAfter)
                | .ok wav_bytes =>
                    (.ok [("audio_base64", b64encode wav_bytes)],
                     [(text, speaker_wav_bytes)], jobAfter)

/-- The value `handler(job)` returns, or the exception it raises. -/
def handler (tts : String → List Nat → Except PyError (List Nat))
    (job : Job) : Except PyError Response :=
  (handlerImpl tts job).1

/-- The `pipeline.tts` calls one invocation of `handler` performs. -/
def ttsCalls (tts : String → List Nat → Except PyError (List Nat))
    (job : Job) : List (String × List Nat) :=
  (handlerImpl tts job).2.1

/-- The job mapping as it stands after one invocation of `handler`. -/
def finalJob (tts : String → List Nat → Except PyError (List Nat))
    (job : Job) : Job :=
  (handlerImpl tts job).2.2

/-- The pipeline object: `KokoroV1Pipeline(use_gpu=True)` retains its
construction flag. -/
structure KokoroV1Pipeline where
  use_gpu : Bool
  deriving DecidableEq, Repr

/-- The module-level construction on line 8: `KokoroV1Pipeline(use_gpu=True)`. -/
def pipeline : KokoroV1Pipeline := { use_gpu := true }

/-- Process-wide state: the pipeline object currently bound to the
module-level name, and how many times the constructor has run. -/
structure ProcState where
  pipeline : KokoroV1Pipeline
  constructionCount : Nat
  deriving DecidableEq, Repr

/-- Module import time: line 8 runs once, binding `pipeline` before any
job is handled. -/
def startProc : ProcState :=
  { pipeline := pipeline, constructionCount := 1 }

/-- Handling one job: the handler runs against the pipeline bound in the
process state and neither constructs a new pipeline nor rebinds the name. -/
def handleStep (ttsOf : KokoroV1Pipeline → String → List Nat → Except PyError (List Nat))
    (s : ProcState) (job : Job) : ProcState × Except PyError Response :=
  (s, handler (ttsOf s.pipeline) job)

/-- The process state after a sequence of jobs has been handled. -/
def runJobs (ttsOf : KokoroV1Pipeline → String → List Nat → Except PyError (List Nat))
    (s : ProcState) (jobs : List Job) : ProcState :=
  jobs.foldl (fun st j => (handleStep ttsOf st j).1) s

/-- A returned dict has the success shape: the single key `audio_base64`. -/
def isSuccessShape (r : Response) : Bool :=
  match r with
  | [(k, _)] => k == "audio_base64"
  | _ => false

/-- A returned dict has the failure shape: the single key `error`. -/
def isErrorShape (r : Response) : Bool :=
  match r with
  | [(k, _)] => k == "error"
  | _ => false

deriving instance DecidableEq for Except

/-! ### Facts about the base64 alphabet tables -/

/-- Decoding table inverts the encoding table on each sextet value. -/
lemma b64Val_b64Char_fin : ∀ n : Fin 64, b64Val (b64Char n.val) = some n.val := by
  decide

/-- No alphabet character is the padding character. -/
lemma b64Char_ne_pad_fin : ∀ n : Fin 64, b64Char n.val ≠ '=' := by
  decide

/-- Every alphabet character is ASCII. -/
lemma b64Char_ascii_fin : ∀ n : Fin 64, (b64Char n.val).toNat < 128 := by
  decide

lemma b64Val_b64Char {n : Nat} (h : n < 64) : b64Val (b64Char n) = some n :=
  b64Val_b64Char_fin ⟨n, h⟩

lemma b64Char_ne_pad {n : Nat} (h : n < 64) : b64Char n ≠ '=' :=
  b64Char_ne_pad_fin ⟨n, h⟩

lemma b64Char_ascii (n : Nat) : (b64Char n).toNat < 128 := by
  by_cases h : n < 64
  · exact b64Char_ascii_fin ⟨n, h⟩
  · have hlen : b64Chars.length ≤ n := by
      have : b64Chars.length = 64 := by decide
      omega
    show (b64Chars.getD n '=').toNat < 128
    rw [List.getD_eq_default _ _ hlen]
    decide

/-! ### Stepping lemmas for the `a2b_base64` state machine -/

lemma a2b_nil_zero (l p : Nat) (acc : List Nat) :
    a2b [] 0 l p acc = .ok acc.reverse := by
  simp [a2b]

lemma a2b_data_zero {c : Char} {v : Nat} (hne : c ≠ '=') (hv : b64Val c = some v)
    (rest : List Char) (l p : Nat) (acc : List Nat) :
    a2b (c :: rest) 0 l p acc = a2b rest 1 v 0 acc := by
  simp [a2b, hne, hv]

lemma a2b_data_one {c : Char} {v : Nat} (hne : c ≠ '=') (hv : b64Val c = some v)
    (rest : List Char) (l p : Nat) (acc : List Nat) :
    a2b (c :: rest) 1 l p acc = a2b rest 2 (v % 16) 0 ((l * 4 + v / 16) :: acc) := by
  simp [a2b, hne, hv]

lemma a2b_data_two {c : Char} {v : Nat} (hne : c ≠ '=') (hv : b64Val c = some v)
    (rest : List Char) (l p : Nat) (acc : List Nat) :
    a2b (c :: rest) 2 l p acc = a2b rest 3 (v % 4) 0 ((l * 16 + v / 4) :: acc) := by
  simp [a2b, hne, hv]

lemma a2b_data_three {c : Char} {v : Nat} (hne : c ≠ '=') (hv : b64Val c = some v)
    (rest : List Char) (l p : Nat) (acc : List Nat) :
    a2b (c :: rest) 3 l p acc = a2b rest 0 0 0 ((l * 64 + v) :: acc) := by
  simp [a2b, hne, hv]

lemma a2b_pad_two_first (rest : List Char) (l : Nat) (acc : List Nat) :
    a2b ('=' :: rest) 2 l 0 acc = a2b rest 2 l 1 acc := by
  simp [a2b]

lemma a2b_pad_two_second (rest : List Char) (l : Nat) (acc : List Nat) :
    a2b ('=' :: rest) 2 l 1 acc = .ok acc.reverse := by
  simp [a2b]

lemma a2b_pad_three (rest : List Char) (l : Nat) (acc : List Nat) :
    a2b ('=' :: rest) 3 l 0 acc = .ok acc.reverse := by
  simp [a2b]

/-! ### The round trip: decoding inverts encoding -/

/-- Decoding the encoder's character stream from the initial machine state
recovers the bytes, appended after whatever was already emitted. -/
lemma a2b_b64encodeChars :
    ∀ (bs : List Nat), (∀ x ∈ bs, x < 256) → ∀ acc : List Nat,
      a2b (b64encodeChars bs) 0 0 0 acc = .ok (acc.reverse ++ bs)
  | [], _, acc => by
      simp [b64encodeChars, a2b_nil_zero]
  | [a], h, acc => by
      have ha : a < 256 := h a (by simp)
      have h1 : a / 4 < 64 := by omega
      have h2 : a % 4 * 16 < 64 := by omega
      rw [show b64encodeChars [a] =
            [b64Char (a / 4), b64Char (a % 4 * 16), '=', '='] from rfl]
      rw [a2b_data_zero (b64Char_ne_pad h1) (b64Val_b64Char h1)]
      rw [a2b_data_one (b64Char_ne_pad h2) (b64Val_b64Char h2)]
      rw [show a / 4 * 4 + a % 4 * 16 / 16 = a by omega]
      rw [show a % 4 * 16 % 16 = 0 by omega]
      rw [a2b_pad_two_first, a2b_pad_two_second]
      simp
  | [a, b], h, acc => by
      have ha : a < 256 := h a (by simp)
      have hb : b < 256 := h b (by simp)
      have h1 : a / 4 < 64 := by omega
      have h2 : a % 4 * 16 + b / 16 < 64 := by omega
      have h3 : b % 16 * 4 < 64 := by omega
      rw [show b64encodeChars [a, b] =
            [b64Char (a / 4), b64Char (a % 4 * 16 + b / 16),
             b64Char (b % 16 * 4), '='] from rfl]
      rw [a2b_data_zero (b64Char_ne_pad h1) (b64Val_b64Char h1)]
      rw [a2b_data_one (b64Char_ne_pad h2) (b64Val_b64Char h2)]
      rw [show a / 4 * 4 + (a % 4 * 16 + b / 16) / 16 = a by omega]
      rw [show (a % 4 * 16 + b / 16) % 16 = b / 16 by omega]
      rw [a2b_data_two (b64Char_ne_pad h3) (b64Val_b64Char h3)]
      rw [show b / 16 * 16 + b % 16 * 4 / 4 = b by omega]
      rw [show b % 16 * 4 % 4 = 0 by omega]
      rw [a2b_pad_three]
      simp
  | a :: b :: c :: rest, h, acc => by
      have ha : a < 256 := h a (by simp)
      have hb : b < 256 := h b (by simp)
      have hc : c < 256 := h c (by simp)
      have h1 : a / 4 < 64 := by omega
      have h2 : a % 4 * 16 + b / 16 < 64 := by omega
      have h3 : b % 16 * 4 + c / 64 < 64 := by omega
      have h4 : c % 64 < 64 := by omega
      rw [show b64encodeChars (a :: b :: c :: rest) =
            b64Char (a / 4) :: b64Char (a % 4 * 16 + b / 16) ::
            b64Char (b % 16 * 4 + c / 64) :: b64Char (c % 64) ::
            b64encodeChars rest from rfl]
      rw [a2b_data_zero (b64Char_ne_pad h1) (b64Val_b64Char h1)]
      rw [a2b_data_one (b64Char_ne_pad h2) (b64Val_b64Char h2)]
      rw [show a / 4 * 4 + (a % 4 * 16 + b / 16) / 16 = a by omega]
      rw [show (a % 4 * 16 + b / 16) % 16 = b / 16 by omega]
      rw [a2b_data_two (b64Char_ne_pad h3) (b64Val_b64Char h3)]
      rw [show b / 16 * 16 + (b % 16 * 4 + c / 64) / 4 = b by omega]
      rw [show (b % 16 * 4 + c / 64) % 4 = c / 64 by omega]
      rw [a2b_data_three (b64Char_ne_pad h4) (b64Val_b64Char h4)]
      rw [show c / 64 * 64 + c % 64 = c by omega]
      rw [a2b_b64encodeChars rest (fun x hx => h x (by simp [hx])) (c :: b :: a :: acc)]
      simp

/-- Every character the encoder emits is ASCII. -/
lemma b64encodeChars_ascii :
    ∀ (bs : List Nat), ∀ ch ∈ b64encodeChars bs, ch.toNat < 128
  | [], ch, hch => by simp [b64encodeChars] at hch
  | [a], ch, hch => by
      simp only [b64encodeChars, List.mem_cons, List.not_mem_nil, or_false] at hch
      rcases hch with h | h | h | h <;> subst h
      · exact b64Char_ascii _
      · exact b64Char_ascii _
      · decide
      · decide
  | [a, b], ch, hch => by
      simp only [b64encodeChars, List.mem_cons, List.not_mem_nil, or_false] at hch
      rcases hch with h | h | h | h <;> subst h
      · exact b64Char_ascii _
      · exact b64Char_ascii _
      · exact b64Char_ascii _
      · decide
  | a :: b :: c :: rest, ch, hch => by
      simp only [b64encodeChars, List.mem_cons] at hch
      rcases hch with h | h | h | h | h
      · subst h; exact b64Char_ascii _
      · subst h; exact b64Char_ascii _
      · subst h; exact b64Char_ascii _
      · subst h; exact b64Char_ascii _
      · exact b64encodeChars_ascii rest ch h

/-- Helper: the text-safe encoding used at both boundaries is lossless:
decoding the encoding of any byte sequence recovers it exactly. -/
lemma b64decode_b64encode (bs : List Nat) (h : ∀ x ∈ bs, x < 256) :
    b64decode (b64encode bs) = .ok bs := by
  have htl : (b64encode bs).toList = b64encodeChars bs := rfl
  rw [b64decode, htl]
  rw [if_neg]
  · rw [a2b_b64encodeChars bs h []]
    simp
  · simp only [List.any_eq_true, not_exists, not_and]
    intro ch hch
    have := b64encodeChars_ascii bs ch hch
    simp only [decide_eq_true_eq]
    omega

/-! ### Claim theorems -/

/-- C1: a job whose `input` mapping lacks `speaker_wav_base64`, or holds an
empty (falsy) value there, makes `handler` return exactly
`{error: "speaker_wav_base64 is a required field."}` and the pipeline's
`tts` is never invoked. -/
theorem missing_speaker_returns_error_and_skips_tts
    (tts : String → List Nat → Except PyError (List Nat)) (job : Job)
    (ji : JobInput) (h1 : job.input = some ji)
    (h2 : ji.speaker_wav_base64 = none ∨ ji.speaker_wav_base64 = some "") :
    handler tts job = .ok [("error", requiredFieldError)] ∧
      ttsCalls tts job = [] := by
  rcases h2 with h2 | h2 <;>
    simp [handler, ttsCalls, handlerImpl, Job.getItemInput,
      JobInput.getText, JobInput.getSpeaker, h1, h2]

/-- Witness for C1: a concrete job with `text` present but no
`speaker_wav_base64` gets the error response and no `tts` call. -/
theorem missing_speaker_witness :
    handler (fun _ _ => .ok [])
        { input := some { text := some "hi", speaker_wav_base64 := none } } =
      .ok [("error", requiredFieldError)] ∧
    ttsCalls (fun _ _ => .ok [])
        { input := some { text := some "hi", speaker_wav_base64 := none } } = [] :=
  missing_speaker_returns_error_and_skips_tts _ _
    { text := some "hi", speaker_wav_base64 := none } rfl (Or.inl rfl)

/-- C2: for a well-formed job whose `speaker_wav_base64` decodes to `bs`,
if `tts` answers the job's text and `bs` with audio bytes `B`, then
`handler` returns `{audio_base64: E}` with `E` the encoding of `B`,
decoding `E` gives back exactly `B`, and `tts` was called exactly once,
with the job's text and the decoded bytes. -/
theorem success_response_roundtrip
    (tts : String → List Nat → Except PyError (List Nat)) (job : Job)
    (ji : JobInput) (s : String) (bs B : List Nat)
    (h1 : job.input = some ji) (h2 : ji.speaker_wav_base64 = some s)
    (h3 : s ≠ "") (h4 : b64decode s = .ok bs)
    (h5 : tts (ji.text.getD defaultText) bs = .ok B)
    (h6 : ∀ x ∈ B, x < 256) :
    handler tts job = .ok [("audio_base64", b64encode B)] ∧
    b64decode (b64encode B) = .ok B ∧
    ttsCalls tts job = [(ji.text.getD defaultText, bs)] := by
  refine ⟨?_, b64decode_b64encode B h6, ?_⟩ <;>
    simp [handler, ttsCalls, handlerImpl, Job.getItemInput,
      JobInput.getText, JobInput.getSpeaker, h1, h2, h3, h4, h5]

/-- Witness for C2: job with text `"Hello world"` and speaker sample
`"AAAA"` (three zero bytes), a `tts` that answers `[1, 2, 3]`. -/
theorem success_response_witness :
    handler (fun _ _ => .ok [1, 2, 3])
        { input := some { text := some "Hello world",
                          speaker_wav_base64 := some "AAAA" } } =
      .ok [("audio_base64", b64encode [1, 2, 3])] ∧
    b64decode (b64encode [1, 2, 3]) = .ok [1, 2, 3] ∧
    ttsCalls (fun _ _ => .ok [1, 2, 3])
        { input := some { text := some "Hello world",
                          speaker_wav_base64 := some "AAAA" } } =
      [("Hello world", [0, 0, 0])] :=
  success_response_roundtrip _ _
    { text := some "Hello world", speaker_wav_base64 := some "AAAA" }
    "AAAA" [0, 0, 0] [1, 2, 3] rfl rfl (by decide) (by decide) rfl (by decide)

/-- C3: when the job's `input` has no `text` key, every `tts` call made by
the handler receives the fixed placeholder sentence as its text argument. -/
theorem absent_text_uses_default
    (tts : String → List Nat → Except PyError (List Nat)) (job : Job)
    (ji : JobInput) (h1 : job.input = some ji) (h2 : ji.text = none) :
    ((ttsCalls tts job).all fun p => p.1 == defaultText) = true := by
  cases h3 : ji.speaker_wav_base64 with
  | none =>
      simp [ttsCalls, handlerImpl, Job.getItemInput, JobInput.getText,
        JobInput.getSpeaker, h1, h3]
  | some s =>
      by_cases hs : s = ""
      · simp [ttsCalls, handlerImpl, Job.getItemInput, JobInput.getText,
          JobInput.getSpeaker, h1, h3, hs]
      · cases hd : b64decode s with
        | error e =>
            simp [ttsCalls, handlerImpl, Job.getItemInput, JobInput.getText,
              JobInput.getSpeaker, h1, h2, h3, hs, hd]
        | ok bs =>
            cases ht : tts defaultText bs with
            | error e =>
                simp [ttsCalls, handlerImpl, Job.getItemInput, JobInput.getText,
                  JobInput.getSpeaker, h1, h2, h3, hs, hd, ht]
            | ok wav =>
                simp [ttsCalls, handlerImpl, Job.getItemInput, JobInput.getText,
                  JobInput.getSpeaker, h1, h2, h3, hs, hd, ht]

/-- Witness for C3: a job with no `text` key and a decodable speaker
sample; the one `tts` call carries the placeholder text. -/
theorem absent_text_witness :
    ((ttsCalls (fun _ _ => .ok [])
        { input := some { text := none, speaker_wav_base64 := some "AAAA" } }).all
      fun p => p.1 == defaultText) = true :=
  absent_text_uses_default _ _
    { text := none, speaker_wav_base64 := some "AAAA" } rfl rfl

/-- C4: the text-safe encoding the handler applies to synthesis output,
composed with the decode it applies to `speaker_wav_base64`, is lossless:
decoding the encoding of any byte sequence yields exactly those bytes. -/
theorem encode_then_decode_lossless (bs : List Nat) (h : ∀ x ∈ bs, x < 256) :
    b64decode (b64encode bs) = .ok bs :=
  b64decode_b64encode bs h

/-- Witness for C4: a concrete byte sequence survives the round trip. -/
theorem encode_then_decode_witness :
    b64decode (b64encode [0, 255, 17, 42]) = .ok [0, 255, 17, 42] :=
  encode_then_decode_lossless [0, 255, 17, 42] (by decide)

/-- Counterexample for C5: the job whose `speaker_wav_base64` is the
non-empty, non-base64 string `"!"` does not raise: the lenient decoder
discards the character, decodes the empty byte string, and the handler
proceeds to call `tts` and return a success response. -/
theorem lenient_decode_no_failure :
    handler (fun _ _ => .ok [0])
        { input := some { text := none, speaker_wav_base64 := some "!" } } =
      .ok [("audio_base64", "AA==")] ∧
    ttsCalls (fun _ _ => .ok [0])
        { input := some { text := none, speaker_wav_base64 := some "!" } } =
      [(defaultText, [])] ∧
    b64decode "!" = .ok [] ∧ ("!" : String) ≠ "" := by
  refine ⟨by decide, by decide, by decide, by decide⟩

/-- C5 (amended): when the non-empty `speaker_wav_base64` string actually
fails base64 decoding (for CPython's lenient decoder: its data characters
leave an incomplete quad, as with `"A"` or `"AB"`), the failure propagates
uncaught out of `handler`: no structured error response, no `tts` call. -/
theorem failed_decode_propagates
    (tts : String → List Nat → Except PyError (List Nat)) (job : Job)
    (ji : JobInput) (s : String) (e : PyError)
    (h1 : job.input = some ji) (h2 : ji.speaker_wav_base64 = some s)
    (h3 : s ≠ "") (h4 : b64decode s = .error e) :
    handler tts job = .error e ∧ ttsCalls tts job = [] := by
  refine ⟨?_, ?_⟩ <;>
    simp [handler, ttsCalls, handlerImpl, Job.getItemInput,
      JobInput.getText, JobInput.getSpeaker, h1, h2, h3, h4]

/-- Witness for C5 (amended): the single-character string `"A"` makes the
decoder raise, and the handler propagates that failure. -/
theorem failed_decode_witness :
    handler (fun _ _ => .ok [])
        { input := some { text := none, speaker_wav_base64 := some "A" } } =
      .error (.binasciiError "Invalid base64-encoded string") ∧
    ttsCalls (fun _ _ => .ok [])
        { input := some { text := none, speaker_wav_base64 := some "A" } } = [] :=
  failed_decode_propagates _ _
    { text := none, speaker_wav_base64 := some "A" } "A"
    (.binasciiError "Invalid base64-encoded string") rfl rfl (by decide) (by decide)

/-- C6: the pipeline is constructed exactly once, at process start, before
any job; handling any sequence of jobs performs no further construction and
never rebinds the module-level `pipeline`. -/
theorem pipeline_constructed_once
    (ttsOf : KokoroV1Pipeline → String → List Nat → Except PyError (List Nat))
    (jobs : List Job) :
    (runJobs ttsOf startProc jobs).constructionCount = 1 ∧
    (runJobs ttsOf startProc jobs).pipeline = pipeline ∧
    startProc.constructionCount = 1 := by
  have h : runJobs ttsOf startProc jobs = startProc := by
    induction jobs with
    | nil => rfl
    | cons j js ih =>
        simp only [runJobs, handleStep, List.foldl_cons] at ih ⊢
        exact ih
  rw [h]
  exact ⟨rfl, rfl, rfl⟩

/-- C7: any mapping the handler returns (rather than raising) has exactly
one of the two shapes: the single key `audio_base64`, or the single key
`error`. -/
theorem response_has_exactly_one_shape
    (tts : String → List Nat → Except PyError (List Nat)) (job : Job)
    (r : Response) (h : handler tts job = .ok r) :
    xor (isSuccessShape r) (isErrorShape r) = true := by
  obtain ⟨inp⟩ := job
  cases inp with
  | none =>
      simp [handler, handlerImpl, Job.getItemInput] at h
  | some ji =>
      cases h3 : ji.speaker_wav_base64 with
      | none =>
          simp [handler, handlerImpl, Job.getItemInput, JobInput.getText,
            JobInput.getSpeaker, h3] at h
          subst h
          decide
      | some s =>
          by_cases hs : s = ""
          · simp [handler, handlerImpl, Job.getItemInput, JobInput.getText,
              JobInput.getSpeaker, h3, hs] at h
            subst h
            decide
          · cases hd : b64decode s with
            | error e =>
                simp [handler, handlerImpl, Job.getItemInput, JobInput.getText,
                  JobInput.getSpeaker, h3, hs, hd] at h
            | ok bs =>
                cases ht : tts (ji.text.getD defaultText) bs with
                | error e =>
                    simp [handler, handlerImpl, Job.getItemInput, JobInput.getText,
                      JobInput.getSpeaker, h3, hs, hd, ht] at h
                | ok wav =>
                    simp [handler, handlerImpl, Job.getItemInput, JobInput.getText,
                      JobInput.getSpeaker, h3, hs, hd, ht] at h
                    subst h
                    simp [isSuccessShape, isErrorShape]

/-- Witness for C7: the error response of a speaker-less job has exactly
the failure shape. -/
theorem response_shape_witness :
    xor (isSuccessShape [("error", requiredFieldError)])
        (isErrorShape [("error", requiredFieldError)]) = true :=
  response_has_exactly_one_shape (fun _ _ => .ok [])
    { input := some { text := none, speaker_wav_base64 := none } }
    [("error", requiredFieldError)] (by decide)

/-- C8: the handler is deterministic in (job, synthesize behaviour): two
invocations on equal jobs, against synthesize operations that agree on
every argument pair, give the same outcome - same response or same raised
failure, same call trace, same final job. -/
theorem handler_deterministic
    (tts1 tts2 : String → List Nat → Except PyError (List Nat)) (job : Job)
    (h : ∀ t b, tts1 t b = tts2 t b) :
    handlerImpl tts1 job = handlerImpl tts2 job := by
  have hf : tts1 = tts2 := funext fun t => funext fun b => h t b
  rw [hf]

/-- Witness for C8: two syntactically different but pointwise-equal
synthesize behaviours give identical outcomes on a concrete job. -/
theorem handler_deterministic_witness :
    handlerImpl (fun _ b => .ok b)
        { input := some { text := none, speaker_wav_base64 := some "AAAA" } } =
      handlerImpl (fun _ b => .ok (b.map id))
        { input := some { text := none, speaker_wav_base64 := some "AAAA" } } :=
  handler_deterministic _ _
    { input := some { text := none, speaker_wav_base64 := some "AAAA" } }
    (fun t b => by simp)

/-- C9: the handler never mutates the job it receives: whatever branch is
taken (success, error response, or raised failure), the job mapping after
the invocation equals the job mapping before it. -/
theorem job_never_mutated
    (tts : String → List Nat → Except PyError (List Nat)) (job : Job) :
    finalJob tts job = job := by
  obtain ⟨inp⟩ := job
  cases inp with
  | none => rfl
  | some ji =>
      cases h3 : ji.speaker_wav_base64 with
      | none =>
          simp [finalJob, handlerImpl, Job.getItemInput, JobInput.getText,
            JobInput.getSpeaker, h3]
      | some s =>
          by_cases hs : s = ""
          · simp [finalJob, handlerImpl, Job.getItemInput, JobInput.getText,
              JobInput.getSpeaker, h3, hs]
          · cases hd : b64decode s with
            | error e =>
                simp [finalJob, handlerImpl, Job.getItemInput, JobInput.getText,
                  JobInput.getSpeaker, h3, hs, hd]
            | ok bs =>
                cases ht : tts (ji.text.getD defaultText) bs with
                | error e =>
                    simp [finalJob, handlerImpl, Job.getItemInput, JobInput.getText,
                      JobInput.getSpeaker, h3, hs, hd, ht]
                | ok wav =>
                    simp [finalJob, handlerImpl, Job.getItemInput, JobInput.getText,
                      JobInput.getSpeaker, h3, hs, hd, ht]

/-- C10: a job mapping without the key `input` makes the very first
dictionary access raise `KeyError`: no error response, no decoding, no
`tts` call, and the job itself untouched. -/
theorem missing_input_key_raises
    (tts : String → List Nat → Except PyError (List Nat)) (job : Job)
    (h : job.input = none) :
    handlerImpl tts job = (.error (.keyError "input"), [], job) := by
  simp [handlerImpl, Job.getItemInput, h]

/-- Witness for C10: the empty job raises `KeyError('input')`. -/
theorem missing_input_key_witness :
    handlerImpl (fun _ _ => .ok []) { input := none } =
      (.error (.keyError "input"), [], { input := none }) :=
  missing_input_key_raises _ _ rfl
